import Mathlib

/-
Verification development for the kdigger syscalls bucket
(pkg/plugins/syscalls): the syscall-availability probing engine.
The definitions below are a shallow embedding of the Go source:
`syscallIter`, `skippedSyscalls`, `scanSyscall`, `syscallName` and
`SyscallsBucket.Run` from the syscalls package, plus the darwin
platform stub `Bucket.Run`.  Machine integers are modelled as `Int`
(Go `int`), errno values as `Int`, a raw-invocation result as
`Option Int` (`none` = the invocation did not come back before the
timeout arm of the select fired).
-/

set_option maxHeartbeats 2000000

set_option maxRecDepth 8192

namespace Kdigger

/-
Syscall numbers for linux/amd64, the values of the `unix.SYS_*`
constants of golang.org/x/sys/unix that the source references.  The
`syscallName` switch in the source enumerates exactly these 335
constants in ascending numeric order 0..334.
-/

namespace unix

def SYS_READ : Int := 0
def SYS_WRITE : Int := 1
def SYS_OPEN : Int := 2
def SYS_CLOSE : Int := 3
def SYS_STAT : Int := 4
def SYS_FSTAT : Int := 5
def SYS_LSTAT : Int := 6
def SYS_POLL : Int := 7
def SYS_LSEEK : Int := 8
def SYS_MMAP : Int := 9
def SYS_MPROTECT : Int := 10
def SYS_MUNMAP : Int := 11
def SYS_BRK : Int := 12
def SYS_RT_SIGACTION : Int := 13
def SYS_RT_SIGPROCMASK : Int := 14
def SYS_RT_SIGRETURN : Int := 15
def SYS_IOCTL : Int := 16
def SYS_PREAD64 : Int := 17
def SYS_PWRITE64 : Int := 18
def SYS_READV : Int := 19
def SYS_WRITEV : Int := 20
def SYS_ACCESS : Int := 21
def SYS_PIPE : Int := 22
def SYS_SELECT : Int := 23
def SYS_SCHED_YIELD : Int := 24
def SYS_MREMAP : Int := 25
def SYS_MSYNC : Int := 26
def SYS_MINCORE : Int := 27
def SYS_MADVISE : Int := 28
def SYS_SHMGET : Int := 29
def SYS_SHMAT : Int := 30
def SYS_SHMCTL : Int := 31
def SYS_DUP : Int := 32
def SYS_DUP2 : Int := 33
def SYS_PAUSE : Int := 34
def SYS_NANOSLEEP : Int := 35
def SYS_GETITIMER : Int := 36
def SYS_ALARM : Int := 37
def SYS_SETITIMER : Int := 38
def SYS_GETPID : Int := 39
def SYS_SENDFILE : Int := 40
def SYS_SOCKET : Int := 41
def SYS_CONNECT : Int := 42
def SYS_ACCEPT : Int := 43
def SYS_SENDTO : Int := 44
def SYS_RECVFROM : Int := 45
def SYS_SENDMSG : Int := 46
def SYS_RECVMSG : Int := 47
def SYS_SHUTDOWN : Int := 48
def SYS_BIND : Int := 49
def SYS_LISTEN : Int := 50
def SYS_GETSOCKNAME : Int := 51
def SYS_GETPEERNAME : Int := 52
def SYS_SOCKETPAIR : Int := 53
def SYS_SETSOCKOPT : Int := 54
def SYS_GETSOCKOPT : Int := 55
def SYS_CLONE : Int := 56
def SYS_FORK : Int := 57
def SYS_VFORK : Int := 58
def SYS_EXECVE : Int := 59
def SYS_EXIT : Int := 60
def SYS_WAIT4 : Int := 61
def SYS_KILL : Int := 62
def SYS_UNAME : Int := 63
def SYS_SEMGET : Int := 64
def SYS_SEMOP : Int := 65
def SYS_SEMCTL : Int := 66
def SYS_SHMDT : Int := 67
def SYS_MSGGET : Int := 68
def SYS_MSGSND : Int := 69
def SYS_MSGRCV : Int := 70
def SYS_MSGCTL : Int := 71
def SYS_FCNTL : Int := 72
def SYS_FLOCK : Int := 73
def SYS_FSYNC : Int := 74
def SYS_FDATASYNC : Int := 75
def SYS_TRUNCATE : Int := 76
def SYS_FTRUNCATE : Int := 77
def SYS_GETDENTS : Int := 78
def SYS_GETCWD : Int := 79
def SYS_CHDIR : Int := 80
def SYS_FCHDIR : Int := 81
def SYS_RENAME : Int := 82
def SYS_MKDIR : Int := 83
def SYS_RMDIR : Int := 84
def SYS_CREAT : Int := 85
def SYS_LINK : Int := 86
def SYS_UNLINK : Int := 87
def SYS_SYMLINK : Int := 88
def SYS_READLINK : Int := 89
def SYS_CHMOD : Int := 90
def SYS_FCHMOD : Int := 91
def SYS_CHOWN : Int := 92
def SYS_FCHOWN : Int := 93
def SYS_LCHOWN : Int := 94
def SYS_UMASK : Int := 95
def SYS_GETTIMEOFDAY : Int := 96
def SYS_GETRLIMIT : Int := 97
def SYS_GETRUSAGE : Int := 98
def SYS_SYSINFO : Int := 99
def SYS_TIMES : Int := 100
def SYS_PTRACE : Int := 101
def SYS_GETUID : Int := 102
def SYS_SYSLOG : Int := 103
def SYS_GETGID : Int := 104
def SYS_SETUID : Int := 105
def SYS_SETGID : Int := 106
def SYS_GETEUID : Int := 107
def SYS_GETEGID : Int := 108
def SYS_SETPGID : Int := 109
def SYS_GETPPID : Int := 110
def SYS_GETPGRP : Int := 111
def SYS_SETSID : Int := 112
def SYS_SETREUID : Int := 113
def SYS_SETREGID : Int := 114
def SYS_GETGROUPS : Int := 115
def SYS_SETGROUPS : Int := 116
def SYS_SETRESUID : Int := 117
def SYS_GETRESUID : Int := 118
def SYS_SETRESGID : Int := 119
def SYS_GETRESGID : Int := 120
def SYS_GETPGID : Int := 121
def SYS_SETFSUID : Int := 122
def SYS_SETFSGID : Int := 123
def SYS_GETSID : Int := 124
def SYS_CAPGET : Int := 125
def SYS_CAPSET : Int := 126
def SYS_RT_SIGPENDING : Int := 127
def SYS_RT_SIGTIMEDWAIT : Int := 128
def SYS_RT_SIGQUEUEINFO : Int := 129
def SYS_RT_SIGSUSPEND : Int := 130
def SYS_SIGALTSTACK : Int := 131
def SYS_UTIME : Int := 132
def SYS_MKNOD : Int := 133
def SYS_USELIB : Int := 134
def SYS_PERSONALITY : Int := 135
def SYS_USTAT : Int := 136
def SYS_STATFS : Int := 137
def SYS_FSTATFS : Int := 138
def SYS_SYSFS : Int := 139
def SYS_GETPRIORITY : Int := 140
def SYS_SETPRIORITY : Int := 141
def SYS_SCHED_SETPARAM : Int := 142
def SYS_SCHED_GETPARAM : Int := 143
def SYS_SCHED_SETSCHEDULER : Int := 144
def SYS_SCHED_GETSCHEDULER : Int := 145
def SYS_SCHED_GET_PRIORITY_MAX : Int := 146
def SYS_SCHED_GET_PRIORITY_MIN : Int := 147
def SYS_SCHED_RR_GET_INTERVAL : Int := 148
def SYS_MLOCK : Int := 149
def SYS_MUNLOCK : Int := 150
def SYS_MLOCKALL : Int := 151
def SYS_MUNLOCKALL : Int := 152
def SYS_VHANGUP : Int := 153
def SYS_MODIFY_LDT : Int := 154
def SYS_PIVOT_ROOT : Int := 155
def SYS__SYSCTL : Int := 156
def SYS_PRCTL : Int := 157
def SYS_ARCH_PRCTL : Int := 158
def SYS_ADJTIMEX : Int := 159
def SYS_SETRLIMIT : Int := 160
def SYS_CHROOT : Int := 161
def SYS_SYNC : Int := 162
def SYS_ACCT : Int := 163
def SYS_SETTIMEOFDAY : Int := 164
def SYS_MOUNT : Int := 165
def SYS_UMOUNT2 : Int := 166
def SYS_SWAPON : Int := 167
def SYS_SWAPOFF : Int := 168
def SYS_REBOOT : Int := 169
def SYS_SETHOSTNAME : Int := 170
def SYS_SETDOMAINNAME : Int := 171
def SYS_IOPL : Int := 172
def SYS_IOPERM : Int := 173
def SYS_CREATE_MODULE : Int := 174
def SYS_INIT_MODULE : Int := 175
def SYS_DELETE_MODULE : Int := 176
def SYS_GET_KERNEL_SYMS : Int := 177
def SYS_QUERY_MODULE : Int := 178
def SYS_QUOTACTL : Int := 179
def SYS_NFSSERVCTL : Int := 180
def SYS_GETPMSG : Int := 181
def SYS_PUTPMSG : Int := 182
def SYS_AFS_SYSCALL : Int := 183
def SYS_TUXCALL : Int := 184
def SYS_SECURITY : Int := 185
def SYS_GETTID : Int := 186
def SYS_READAHEAD : Int := 187
def SYS_SETXATTR : Int := 188
def SYS_LSETXATTR : Int := 189
def SYS_FSETXATTR : Int := 190
def SYS_GETXATTR : Int := 191
def SYS_LGETXATTR : Int := 192
def SYS_FGETXATTR : Int := 193
def SYS_LISTXATTR : Int := 194
def SYS_LLISTXATTR : Int := 195
def SYS_FLISTXATTR : Int := 196
def SYS_REMOVEXATTR : Int := 197
def SYS_LREMOVEXATTR : Int := 198
def SYS_FREMOVEXATTR : Int := 199
def SYS_TKILL : Int := 200
def SYS_TIME : Int := 201
def SYS_FUTEX : Int := 202
def SYS_SCHED_SETAFFINITY : Int := 203
def SYS_SCHED_GETAFFINITY : Int := 204
def SYS_SET_THREAD_AREA : Int := 205
def SYS_IO_SETUP : Int := 206
def SYS_IO_DESTROY : Int := 207
def SYS_IO_GETEVENTS : Int := 208
def SYS_IO_SUBMIT : Int := 209
def SYS_IO_CANCEL : Int := 210
def SYS_GET_THREAD_AREA : Int := 211
def SYS_LOOKUP_DCOOKIE : Int := 212
def SYS_EPOLL_CREATE : Int := 213
def SYS_EPOLL_CTL_OLD : Int := 214
def SYS_EPOLL_WAIT_OLD : Int := 215
def SYS_REMAP_FILE_PAGES : Int := 216
def SYS_GETDENTS64 : Int := 217
def SYS_SET_TID_ADDRESS : Int := 218
def SYS_RESTART_SYSCALL : Int := 219
def SYS_SEMTIMEDOP : Int := 220
def SYS_FADVISE64 : Int := 221
def SYS_TIMER_CREATE : Int := 222
def SYS_TIMER_SETTIME : Int := 223
def SYS_TIMER_GETTIME : Int := 224
def SYS_TIMER_GETOVERRUN : Int := 225
def SYS_TIMER_DELETE : Int := 226
def SYS_CLOCK_SETTIME : Int := 227
def SYS_CLOCK_GETTIME : Int := 228
def SYS_CLOCK_GETRES : Int := 229
def SYS_CLOCK_NANOSLEEP : Int := 230
def SYS_EXIT_GROUP : Int := 231
def SYS_EPOLL_WAIT : Int := 232
def SYS_EPOLL_CTL : Int := 233
def SYS_TGKILL : Int := 234
def SYS_UTIMES : Int := 235
def SYS_VSERVER : Int := 236
def SYS_MBIND : Int := 237
def SYS_SET_MEMPOLICY : Int := 238
def SYS_GET_MEMPOLICY : Int := 239
def SYS_MQ_OPEN : Int := 240
def SYS_MQ_UNLINK : Int := 241
def SYS_MQ_TIMEDSEND : Int := 242
def SYS_MQ_TIMEDRECEIVE : Int := 243
def SYS_MQ_NOTIFY : Int := 244
def SYS_MQ_GETSETATTR : Int := 245
def SYS_KEXEC_LOAD : Int := 246
def SYS_WAITID : Int := 247
def SYS_ADD_KEY : Int := 248
def SYS_REQUEST_KEY : Int := 249
def SYS_KEYCTL : Int := 250
def SYS_IOPRIO_SET : Int := 251
def SYS_IOPRIO_GET : Int := 252
def SYS_INOTIFY_INIT : Int := 253
def SYS_INOTIFY_ADD_WATCH : Int := 254
def SYS_INOTIFY_RM_WATCH : Int := 255
def SYS_MIGRATE_PAGES : Int := 256
def SYS_OPENAT : Int := 257
def SYS_MKDIRAT : Int := 258
def SYS_MKNODAT : Int := 259
def SYS_FCHOWNAT : Int := 260
def SYS_FUTIMESAT : Int := 261
def SYS_NEWFSTATAT : Int := 262
def SYS_UNLINKAT : Int := 263
def SYS_RENAMEAT : Int := 264
def SYS_LINKAT : Int := 265
def SYS_SYMLINKAT : Int := 266
def SYS_READLINKAT : Int := 267
def SYS_FCHMODAT : Int := 268
def SYS_FACCESSAT : Int := 269
def SYS_PSELECT6 : Int := 270
def SYS_PPOLL : Int := 271
def SYS_UNSHARE : Int := 272
def SYS_SET_ROBUST_LIST : Int := 273
def SYS_GET_ROBUST_LIST : Int := 274
def SYS_SPLICE : Int := 275
def SYS_TEE : Int := 276
def SYS_SYNC_FILE_RANGE : Int := 277
def SYS_VMSPLICE : Int := 278
def SYS_MOVE_PAGES : Int := 279
def SYS_UTIMENSAT : Int := 280
def SYS_EPOLL_PWAIT : Int := 281
def SYS_SIGNALFD : Int := 282
def SYS_TIMERFD_CREATE : Int := 283
def SYS_EVENTFD : Int := 284
def SYS_FALLOCATE : Int := 285
def SYS_TIMERFD_SETTIME : Int := 286
def SYS_TIMERFD_GETTIME : Int := 287
def SYS_ACCEPT4 : Int := 288
def SYS_SIGNALFD4 : Int := 289
def SYS_EVENTFD2 : Int := 290
def SYS_EPOLL_CREATE1 : Int := 291
def SYS_DUP3 : Int := 292
def SYS_PIPE2 : Int := 293
def SYS_INOTIFY_INIT1 : Int := 294
def SYS_PREADV : Int := 295
def SYS_PWRITEV : Int := 296
def SYS_RT_TGSIGQUEUEINFO : Int := 297
def SYS_PERF_EVENT_OPEN : Int := 298
def SYS_RECVMMSG : Int := 299
def SYS_FANOTIFY_INIT : Int := 300
def SYS_FANOTIFY_MARK : Int := 301
def SYS_PRLIMIT64 : Int := 302
def SYS_NAME_TO_HANDLE_AT : Int := 303
def SYS_OPEN_BY_HANDLE_AT : Int := 304
def SYS_CLOCK_ADJTIME : Int := 305
def SYS_SYNCFS : Int := 306
def SYS_SENDMMSG : Int := 307
def SYS_SETNS : Int := 308
def SYS_GETCPU : Int := 309
def SYS_PROCESS_VM_READV : Int := 310
def SYS_PROCESS_VM_WRITEV : Int := 311
def SYS_KCMP : Int := 312
def SYS_FINIT_MODULE : Int := 313
def SYS_SCHED_SETATTR : Int := 314
def SYS_SCHED_GETATTR : Int := 315
def SYS_RENAMEAT2 : Int := 316
def SYS_SECCOMP : Int := 317
def SYS_GETRANDOM : Int := 318
def SYS_MEMFD_CREATE : Int := 319
def SYS_KEXEC_FILE_LOAD : Int := 320
def SYS_BPF : Int := 321
def SYS_EXECVEAT : Int := 322
def SYS_USERFAULTFD : Int := 323
def SYS_MEMBARRIER : Int := 324
def SYS_MLOCK2 : Int := 325
def SYS_COPY_FILE_RANGE : Int := 326
def SYS_PREADV2 : Int := 327
def SYS_PWRITEV2 : Int := 328
def SYS_PKEY_MPROTECT : Int := 329
def SYS_PKEY_ALLOC : Int := 330
def SYS_PKEY_FREE : Int := 331
def SYS_STATX : Int := 332
def SYS_IO_PGETEVENTS : Int := 333
def SYS_RSEQ : Int := 334

end unix

/- Errno values for linux/amd64: the `syscall.EPERM`, `syscall.EACCES`
and `syscall.EOPNOTSUPP` constants compared against in `scanSyscall`. -/

def EPERM : Int := 1

def EACCES : Int := 13

def EOPNOTSUPP : Int := 95

/-
The id -> canonical-name table of the `syscallName` switch, as a
key/value list in the switch's case order.  Go `switch` picks the
first matching case; `List.lookup` picks the first matching key, so
the two agree (all keys are distinct anyway).
-/

def syscallCatalog : List (Int × String) := [
  (unix.SYS_READ, "READ"),
  (unix.SYS_WRITE, "WRITE"),
  (unix.SYS_OPEN, "OPEN"),
  (unix.SYS_CLOSE, "CLOSE"),
  (unix.SYS_STAT, "STAT"),
  (unix.SYS_FSTAT, "FSTAT"),
  (unix.SYS_LSTAT, "LSTAT"),
  (unix.SYS_POLL, "POLL"),
  (unix.SYS_LSEEK, "LSEEK"),
  (unix.SYS_MMAP, "MMAP"),
  (unix.SYS_MPROTECT, "MPROTECT"),
  (unix.SYS_MUNMAP, "MUNMAP"),
  (unix.SYS_BRK, "BRK"),
  (unix.SYS_RT_SIGACTION, "RT_SIGACTION"),
  (unix.SYS_RT_SIGPROCMASK, "RT_SIGPROCMASK"),
  (unix.SYS_RT_SIGRETURN, "RT_SIGRETURN"),
  (unix.SYS_IOCTL, "IOCTL"),
  (unix.SYS_PREAD64, "PREAD64"),
  (unix.SYS_PWRITE64, "PWRITE64"),
  (unix.SYS_READV, "READV"),
  (unix.SYS_WRITEV, "WRITEV"),
  (unix.SYS_ACCESS, "ACCESS"),
  (unix.SYS_PIPE, "PIPE"),
  (unix.SYS_SELECT, "SELECT"),
  (unix.SYS_SCHED_YIELD, "SCHED_YIELD"),
  (unix.SYS_MREMAP, "MREMAP"),
  (unix.SYS_MSYNC, "MSYNC"),
  (unix.SYS_MINCORE, "MINCORE"),
  (unix.SYS_MADVISE, "MADVISE"),
  (unix.SYS_SHMGET, "SHMGET"),
  (unix.SYS_SHMAT, "SHMAT"),
  (unix.SYS_SHMCTL, "SHMCTL"),
  (unix.SYS_DUP, "DUP"),
  (unix.SYS_DUP2, "DUP2"),
  (unix.SYS_PAUSE, "PAUSE"),
  (unix.SYS_NANOSLEEP, "NANOSLEEP"),
  (unix.SYS_GETITIMER, "GETITIMER"),
  (unix.SYS_ALARM, "ALARM"),
  (unix.SYS_SETITIMER, "SETITIMER"),
  (unix.SYS_GETPID, "GETPID"),
  (unix.SYS_SENDFILE, "SENDFILE"),
  (unix.SYS_SOCKET, "SOCKET"),
  (unix.SYS_CONNECT, "CONNECT"),
  (unix.SYS_ACCEPT, "ACCEPT"),
  (unix.SYS_SENDTO, "SENDTO"),
  (unix.SYS_RECVFROM, "RECVFROM"),
  (unix.SYS_SENDMSG, "SENDMSG"),
  (unix.SYS_RECVMSG, "RECVMSG"),
  (unix.SYS_SHUTDOWN, "SHUTDOWN"),
  (unix.SYS_BIND, "BIND"),
  (unix.SYS_LISTEN, "LISTEN"),
  (unix.SYS_GETSOCKNAME, "GETSOCKNAME"),
  (unix.SYS_GETPEERNAME, "GETPEERNAME"),
  (unix.SYS_SOCKETPAIR, "SOCKETPAIR"),
  (unix.SYS_SETSOCKOPT, "SETSOCKOPT"),
  (unix.SYS_GETSOCKOPT, "GETSOCKOPT"),
  (unix.SYS_CLONE, "CLONE"),
  (unix.SYS_FORK, "FORK"),
  (unix.SYS_VFORK, "VFORK"),
  (unix.SYS_EXECVE, "EXECVE"),
  (unix.SYS_EXIT, "EXIT"),
  (unix.SYS_WAIT4, "WAIT4"),
  (unix.SYS_KILL, "KILL"),
  (unix.SYS_UNAME, "UNAME"),
  (unix.SYS_SEMGET, "SEMGET"),
  (unix.SYS_SEMOP, "SEMOP"),
  (unix.SYS_SEMCTL, "SEMCTL"),
  (unix.SYS_SHMDT, "SHMDT"),
  (unix.SYS_MSGGET, "MSGGET"),
  (unix.SYS_MSGSND, "MSGSND"),
  (unix.SYS_MSGRCV, "MSGRCV"),
  (unix.SYS_MSGCTL, "MSGCTL"),
  (unix.SYS_FCNTL, "FCNTL"),
  (unix.SYS_FLOCK, "FLOCK"),
  (unix.SYS_FSYNC, "FSYNC"),
  (unix.SYS_FDATASYNC, "FDATASYNC"),
  (unix.SYS_TRUNCATE, "TRUNCATE"),
  (unix.SYS_FTRUNCATE, "FTRUNCATE"),
  (unix.SYS_GETDENTS, "GETDENTS"),
  (unix.SYS_GETCWD, "GETCWD"),
  (unix.SYS_CHDIR, "CHDIR"),
  (unix.SYS_FCHDIR, "FCHDIR"),
  (unix.SYS_RENAME, "RENAME"),
  (unix.SYS_MKDIR, "MKDIR"),
  (unix.SYS_RMDIR, "RMDIR"),
  (unix.SYS_CREAT, "CREAT"),
  (unix.SYS_LINK, "LINK"),
  (unix.SYS_UNLINK, "UNLINK"),
  (unix.SYS_SYMLINK, "SYMLINK"),
  (unix.SYS_READLINK, "READLINK"),
  (unix.SYS_CHMOD, "CHMOD"),
  (unix.SYS_FCHMOD, "FCHMOD"),
  (unix.SYS_CHOWN, "CHOWN"),
  (unix.SYS_FCHOWN, "FCHOWN"),
  (unix.SYS_LCHOWN, "LCHOWN"),
  (unix.SYS_UMASK, "UMASK"),
  (unix.SYS_GETTIMEOFDAY, "GETTIMEOFDAY"),
  (unix.SYS_GETRLIMIT, "GETRLIMIT"),
  (unix.SYS_GETRUSAGE, "GETRUSAGE"),
  (unix.SYS_SYSINFO, "SYSINFO"),
  (unix.SYS_TIMES, "TIMES"),
  (unix.SYS_PTRACE, "PTRACE"),
  (unix.SYS_GETUID, "GETUID"),
  (unix.SYS_SYSLOG, "SYSLOG"),
  (unix.SYS_GETGID, "GETGID"),
  (unix.SYS_SETUID, "SETUID"),
  (unix.SYS_SETGID, "SETGID"),
  (unix.SYS_GETEUID, "GETEUID"),
  (unix.SYS_GETEGID, "GETEGID"),
  (unix.SYS_SETPGID, "SETPGID"),
  (unix.SYS_GETPPID, "GETPPID"),
  (unix.SYS_GETPGRP, "GETPGRP"),
  (unix.SYS_SETSID, "SETSID"),
  (unix.SYS_SETREUID, "SETREUID"),
  (unix.SYS_SETREGID, "SETREGID"),
  (unix.SYS_GETGROUPS, "GETGROUPS"),
  (unix.SYS_SETGROUPS, "SETGROUPS"),
  (unix.SYS_SETRESUID, "SETRESUID"),
  (unix.SYS_GETRESUID, "GETRESUID"),
  (unix.SYS_SETRESGID, "SETRESGID"),
  (unix.SYS_GETRESGID, "GETRESGID"),
  (unix.SYS_GETPGID, "GETPGID"),
  (unix.SYS_SETFSUID, "SETFSUID"),
  (unix.SYS_SETFSGID, "SETFSGID"),
  (unix.SYS_GETSID, "GETSID"),
  (unix.SYS_CAPGET, "CAPGET"),
  (unix.SYS_CAPSET, "CAPSET"),
  (unix.SYS_RT_SIGPENDING, "RT_SIGPENDING"),
  (unix.SYS_RT_SIGTIMEDWAIT, "RT_SIGTIMEDWAIT"),
  (unix.SYS_RT_SIGQUEUEINFO, "RT_SIGQUEUEINFO"),
  (unix.SYS_RT_SIGSUSPEND, "RT_SIGSUSPEND"),
  (unix.SYS_SIGALTSTACK, "SIGALTSTACK"),
  (unix.SYS_UTIME, "UTIME"),
  (unix.SYS_MKNOD, "MKNOD"),
  (unix.SYS_USELIB, "USELIB"),
  (unix.SYS_PERSONALITY, "PERSONALITY"),
  (unix.SYS_USTAT, "USTAT"),
  (unix.SYS_STATFS, "STATFS"),
  (unix.SYS_FSTATFS, "FSTATFS"),
  (unix.SYS_SYSFS, "SYSFS"),
  (unix.SYS_GETPRIORITY, "GETPRIORITY"),
  (unix.SYS_SETPRIORITY, "SETPRIORITY"),
  (unix.SYS_SCHED_SETPARAM, "SCHED_SETPARAM"),
  (unix.SYS_SCHED_GETPARAM, "SCHED_GETPARAM"),
  (unix.SYS_SCHED_SETSCHEDULER, "SCHED_SETSCHEDULER"),
  (unix.SYS_SCHED_GETSCHEDULER, "SCHED_GETSCHEDULER"),
  (unix.SYS_SCHED_GET_PRIORITY_MAX, "SCHED_GET_PRIORITY_MAX"),
  (unix.SYS_SCHED_GET_PRIORITY_MIN, "SCHED_GET_PRIORITY_MIN"),
  (unix.SYS_SCHED_RR_GET_INTERVAL, "SCHED_RR_GET_INTERVAL"),
  (unix.SYS_MLOCK, "MLOCK"),
  (unix.SYS_MUNLOCK, "MUNLOCK"),
  (unix.SYS_MLOCKALL, "MLOCKALL"),
  (unix.SYS_MUNLOCKALL, "MUNLOCKALL"),
  (unix.SYS_VHANGUP, "VHANGUP"),
  (unix.SYS_MODIFY_LDT, "MODIFY_LDT"),
  (unix.SYS_PIVOT_ROOT, "PIVOT_ROOT"),
  (unix.SYS__SYSCTL, "_SYSCTL"),
  (unix.SYS_PRCTL, "PRCTL"),
  (unix.SYS_ARCH_PRCTL, "ARCH_PRCTL"),
  (unix.SYS_ADJTIMEX, "ADJTIMEX"),
  (unix.SYS_SETRLIMIT, "SETRLIMIT"),
  (unix.SYS_CHROOT, "CHROOT"),
  (unix.SYS_SYNC, "SYNC"),
  (unix.SYS_ACCT, "ACCT"),
  (unix.SYS_SETTIMEOFDAY, "SETTIMEOFDAY"),
  (unix.SYS_MOUNT, "MOUNT"),
  (unix.SYS_UMOUNT2, "UMOUNT2"),
  (unix.SYS_SWAPON, "SWAPON"),
  (unix.SYS_SWAPOFF, "SWAPOFF"),
  (unix.SYS_REBOOT, "REBOOT"),
  (unix.SYS_SETHOSTNAME, "SETHOSTNAME"),
  (unix.SYS_SETDOMAINNAME, "SETDOMAINNAME"),
  (unix.SYS_IOPL, "IOPL"),
  (unix.SYS_IOPERM, "IOPERM"),
  (unix.SYS_CREATE_MODULE, "CREATE_MODULE"),
  (unix.SYS_INIT_MODULE, "INIT_MODULE"),
  (unix.SYS_DELETE_MODULE, "DELETE_MODULE"),
  (unix.SYS_GET_KERNEL_SYMS, "GET_KERNEL_SYMS"),
  (unix.SYS_QUERY_MODULE, "QUERY_MODULE"),
  (unix.SYS_QUOTACTL, "QUOTACTL"),
  (unix.SYS_NFSSERVCTL, "NFSSERVCTL"),
  (unix.SYS_GETPMSG, "GETPMSG"),
  (unix.SYS_PUTPMSG, "PUTPMSG"),
  (unix.SYS_AFS_SYSCALL, "AFS_SYSCALL"),
  (unix.SYS_TUXCALL, "TUXCALL"),
  (unix.SYS_SECURITY, "SECURITY"),
  (unix.SYS_GETTID, "GETTID"),
  (unix.SYS_READAHEAD, "READAHEAD"),
  (unix.SYS_SETXATTR, "SETXATTR"),
  (unix.SYS_LSETXATTR, "LSETXATTR"),
  (unix.SYS_FSETXATTR, "FSETXATTR"),
  (unix.SYS_GETXATTR, "GETXATTR"),
  (unix.SYS_LGETXATTR, "LGETXATTR"),
  (unix.SYS_FGETXATTR, "FGETXATTR"),
  (unix.SYS_LISTXATTR, "LISTXATTR"),
  (unix.SYS_LLISTXATTR, "LLISTXATTR"),
  (unix.SYS_FLISTXATTR, "FLISTXATTR"),
  (unix.SYS_REMOVEXATTR, "REMOVEXATTR"),
  (unix.SYS_LREMOVEXATTR, "LREMOVEXATTR"),
  (unix.SYS_FREMOVEXATTR, "FREMOVEXATTR"),
  (unix.SYS_TKILL, "TKILL"),
  (unix.SYS_TIME, "TIME"),
  (unix.SYS_FUTEX, "FUTEX"),
  (unix.SYS_SCHED_SETAFFINITY, "SCHED_SETAFFINITY"),
  (unix.SYS_SCHED_GETAFFINITY, "SCHED_GETAFFINITY"),
  (unix.SYS_SET_THREAD_AREA, "SET_THREAD_AREA"),
  (unix.SYS_IO_SETUP, "IO_SETUP"),
  (unix.SYS_IO_DESTROY, "IO_DESTROY"),
  (unix.SYS_IO_GETEVENTS, "IO_GETEVENTS"),
  (unix.SYS_IO_SUBMIT, "IO_SUBMIT"),
  (unix.SYS_IO_CANCEL, "IO_CANCEL"),
  (unix.SYS_GET_THREAD_AREA, "GET_THREAD_AREA"),
  (unix.SYS_LOOKUP_DCOOKIE, "LOOKUP_DCOOKIE"),
  (unix.SYS_EPOLL_CREATE, "EPOLL_CREATE"),
  (unix.SYS_EPOLL_CTL_OLD, "EPOLL_CTL_OLD"),
  (unix.SYS_EPOLL_WAIT_OLD, "EPOLL_WAIT_OLD"),
  (unix.SYS_REMAP_FILE_PAGES, "REMAP_FILE_PAGES"),
  (unix.SYS_GETDENTS64, "GETDENTS64"),
  (unix.SYS_SET_TID_ADDRESS, "SET_TID_ADDRESS"),
  (unix.SYS_RESTART_SYSCALL, "RESTART_SYSCALL"),
  (unix.SYS_SEMTIMEDOP, "SEMTIMEDOP"),
  (unix.SYS_FADVISE64, "FADVISE64"),
  (unix.SYS_TIMER_CREATE, "TIMER_CREATE"),
  (unix.SYS_TIMER_SETTIME, "TIMER_SETTIME"),
  (unix.SYS_TIMER_GETTIME, "TIMER_GETTIME"),
  (unix.SYS_TIMER_GETOVERRUN, "TIMER_GETOVERRUN"),
  (unix.SYS_TIMER_DELETE, "TIMER_DELETE"),
  (unix.SYS_CLOCK_SETTIME, "CLOCK_SETTIME"),
  (unix.SYS_CLOCK_GETTIME, "CLOCK_GETTIME"),
  (unix.SYS_CLOCK_GETRES, "CLOCK_GETRES"),
  (unix.SYS_CLOCK_NANOSLEEP, "CLOCK_NANOSLEEP"),
  (unix.SYS_EXIT_GROUP, "EXIT_GROUP"),
  (unix.SYS_EPOLL_WAIT, "EPOLL_WAIT"),
  (unix.SYS_EPOLL_CTL, "EPOLL_CTL"),
  (unix.SYS_TGKILL, "TGKILL"),
  (unix.SYS_UTIMES, "UTIMES"),
  (unix.SYS_VSERVER, "VSERVER"),
  (unix.SYS_MBIND, "MBIND"),
  (unix.SYS_SET_MEMPOLICY, "SET_MEMPOLICY"),
  (unix.SYS_GET_MEMPOLICY, "GET_MEMPOLICY"),
  (unix.SYS_MQ_OPEN, "MQ_OPEN"),
  (unix.SYS_MQ_UNLINK, "MQ_UNLINK"),
  (unix.SYS_MQ_TIMEDSEND, "MQ_TIMEDSEND"),
  (unix.SYS_MQ_TIMEDRECEIVE, "MQ_TIMEDRECEIVE"),
  (unix.SYS_MQ_NOTIFY, "MQ_NOTIFY"),
  (unix.SYS_MQ_GETSETATTR, "MQ_GETSETATTR"),
  (unix.SYS_KEXEC_LOAD, "KEXEC_LOAD"),
  (unix.SYS_WAITID, "WAITID"),
  (unix.SYS_ADD_KEY, "ADD_KEY"),
  (unix.SYS_REQUEST_KEY, "REQUEST_KEY"),
  (unix.SYS_KEYCTL, "KEYCTL"),
  (unix.SYS_IOPRIO_SET, "IOPRIO_SET"),
  (unix.SYS_IOPRIO_GET, "IOPRIO_GET"),
  (unix.SYS_INOTIFY_INIT, "INOTIFY_INIT"),
  (unix.SYS_INOTIFY_ADD_WATCH, "INOTIFY_ADD_WATCH"),
  (unix.SYS_INOTIFY_RM_WATCH, "INOTIFY_RM_WATCH"),
  (unix.SYS_MIGRATE_PAGES, "MIGRATE_PAGES"),
  (unix.SYS_OPENAT, "OPENAT"),
  (unix.SYS_MKDIRAT, "MKDIRAT"),
  (unix.SYS_MKNODAT, "MKNODAT"),
  (unix.SYS_FCHOWNAT, "FCHOWNAT"),
  (unix.SYS_FUTIMESAT, "FUTIMESAT"),
  (unix.SYS_NEWFSTATAT, "NEWFSTATAT"),
  (unix.SYS_UNLINKAT, "UNLINKAT"),
  (unix.SYS_RENAMEAT, "RENAMEAT"),
  (unix.SYS_LINKAT, "LINKAT"),
  (unix.SYS_SYMLINKAT, "SYMLINKAT"),
  (unix.SYS_READLINKAT, "READLINKAT"),
  (unix.SYS_FCHMODAT, "FCHMODAT"),
  (unix.SYS_FACCESSAT, "FACCESSAT"),
  (unix.SYS_PSELECT6, "PSELECT6"),
  (unix.SYS_PPOLL, "PPOLL"),
  (unix.SYS_UNSHARE, "UNSHARE"),
  (unix.SYS_SET_ROBUST_LIST, "SET_ROBUST_LIST"),
  (unix.SYS_GET_ROBUST_LIST, "GET_ROBUST_LIST"),
  (unix.SYS_SPLICE, "SPLICE"),
  (unix.SYS_TEE, "TEE"),
  (unix.SYS_SYNC_FILE_RANGE, "SYNC_FILE_RANGE"),
  (unix.SYS_VMSPLICE, "VMSPLICE"),
  (unix.SYS_MOVE_PAGES, "MOVE_PAGES"),
  (unix.SYS_UTIMENSAT, "UTIMENSAT"),
  (unix.SYS_EPOLL_PWAIT, "EPOLL_PWAIT"),
  (unix.SYS_SIGNALFD, "SIGNALFD"),
  (unix.SYS_TIMERFD_CREATE, "TIMERFD_CREATE"),
  (unix.SYS_EVENTFD, "EVENTFD"),
  (unix.SYS_FALLOCATE, "FALLOCATE"),
  (unix.SYS_TIMERFD_SETTIME, "TIMERFD_SETTIME"),
  (unix.SYS_TIMERFD_GETTIME, "TIMERFD_GETTIME"),
  (unix.SYS_ACCEPT4, "ACCEPT4"),
  (unix.SYS_SIGNALFD4, "SIGNALFD4"),
  (unix.SYS_EVENTFD2, "EVENTFD2"),
  (unix.SYS_EPOLL_CREATE1, "EPOLL_CREATE1"),
  (unix.SYS_DUP3, "DUP3"),
  (unix.SYS_PIPE2, "PIPE2"),
  (unix.SYS_INOTIFY_INIT1, "INOTIFY_INIT1"),
  (unix.SYS_PREADV, "PREADV"),
  (unix.SYS_PWRITEV, "PWRITEV"),
  (unix.SYS_RT_TGSIGQUEUEINFO, "RT_TGSIGQUEUEINFO"),
  (unix.SYS_PERF_EVENT_OPEN, "PERF_EVENT_OPEN"),
  (unix.SYS_RECVMMSG, "RECVMMSG"),
  (unix.SYS_FANOTIFY_INIT, "FANOTIFY_INIT"),
  (unix.SYS_FANOTIFY_MARK, "FANOTIFY_MARK"),
  (unix.SYS_PRLIMIT64, "PRLIMIT64"),
  (unix.SYS_NAME_TO_HANDLE_AT, "NAME_TO_HANDLE_AT"),
  (unix.SYS_OPEN_BY_HANDLE_AT, "OPEN_BY_HANDLE_AT"),
  (unix.SYS_CLOCK_ADJTIME, "CLOCK_ADJTIME"),
  (unix.SYS_SYNCFS, "SYNCFS"),
  (unix.SYS_SENDMMSG, "SENDMMSG"),
  (unix.SYS_SETNS, "SETNS"),
  (unix.SYS_GETCPU, "GETCPU"),
  (unix.SYS_PROCESS_VM_READV, "PROCESS_VM_READV"),
  (unix.SYS_PROCESS_VM_WRITEV, "PROCESS_VM_WRITEV"),
  (unix.SYS_KCMP, "KCMP"),
  (unix.SYS_FINIT_MODULE, "FINIT_MODULE"),
  (unix.SYS_SCHED_SETATTR, "SCHED_SETATTR"),
  (unix.SYS_SCHED_GETATTR, "SCHED_GETATTR"),
  (unix.SYS_RENAMEAT2, "RENAMEAT2"),
  (unix.SYS_SECCOMP, "SECCOMP"),
  (unix.SYS_GETRANDOM, "GETRANDOM"),
  (unix.SYS_MEMFD_CREATE, "MEMFD_CREATE"),
  (unix.SYS_KEXEC_FILE_LOAD, "KEXEC_FILE_LOAD"),
  (unix.SYS_BPF, "BPF"),
  (unix.SYS_EXECVEAT, "EXECVEAT"),
  (unix.SYS_USERFAULTFD, "USERFAULTFD"),
  (unix.SYS_MEMBARRIER, "MEMBARRIER"),
  (unix.SYS_MLOCK2, "MLOCK2"),
  (unix.SYS_COPY_FILE_RANGE, "COPY_FILE_RANGE"),
  (unix.SYS_PREADV2, "PREADV2"),
  (unix.SYS_PWRITEV2, "PWRITEV2"),
  (unix.SYS_PKEY_MPROTECT, "PKEY_MPROTECT"),
  (unix.SYS_PKEY_ALLOC, "PKEY_ALLOC"),
  (unix.SYS_PKEY_FREE, "PKEY_FREE"),
  (unix.SYS_STATX, "STATX"),
  (unix.SYS_IO_PGETEVENTS, "IO_PGETEVENTS"),
  (unix.SYS_RSEQ, "RSEQ")]

/-- Embedding of `syscallName` (the Go switch plus its
`fmt.Sprintf("%d - ERR_UNKNOWN_SYSCALL", e)` fallthrough). -/
def syscallName (e : Int) : String :=
  match syscallCatalog.lookup e with
  | some n => n
  | none => toString e ++ " - ERR_UNKNOWN_SYSCALL"

/-- Embedding of the `skippedSyscalls` package-level slice. -/
def skippedSyscalls : List Int :=
  [unix.SYS_RT_SIGRETURN, unix.SYS_SELECT, unix.SYS_PAUSE,
   unix.SYS_PSELECT6, unix.SYS_PPOLL, unix.SYS_WAITID,
   unix.SYS_EXIT, unix.SYS_EXIT_GROUP, unix.SYS_CLONE,
   unix.SYS_FORK, unix.SYS_VFORK, unix.SYS_SECCOMP,
   unix.SYS_PTRACE, unix.SYS_VHANGUP]

/-- Embedding of the six early-return guard blocks at the top of
`scanSyscall`, in source order: the guards compare `id` against
exactly these constants and return before the raw invocation is
launched. -/
def guardExcludes (id : Int) : Bool :=
  (id == unix.SYS_RT_SIGRETURN || id == unix.SYS_SELECT ||
   id == unix.SYS_PAUSE || id == unix.SYS_PSELECT6 ||
   id == unix.SYS_PPOLL || id == unix.SYS_WAITID) ||
  (id == unix.SYS_EXIT || id == unix.SYS_EXIT_GROUP) ||
  (id == unix.SYS_CLONE || id == unix.SYS_FORK || id == unix.SYS_VFORK) ||
  (id == unix.SYS_SECCOMP) ||
  (id == unix.SYS_PTRACE) ||
  (id == unix.SYS_VHANGUP)

/-- The `scanResult` struct sent over the result channel. -/
structure ScanResult where
  name : String
  allowed : Bool
deriving DecidableEq

/-- The three conceptual probe outcomes of the classifier. -/
inductive Outcome
  | allowed
  | blocked
  | dropped
deriving DecidableEq

/-- The errno classification performed by the tail of `scanSyscall`:
`err == EPERM || err == EACCES` is blocked, any other value
(including `none`, i.e. timeout, and `some 0`, i.e. success) other
than `EOPNOTSUPP` is allowed, and `EOPNOTSUPP` is dropped. -/
def classify (err : Option Int) : Outcome :=
  if err = some EPERM ∨ err = some EACCES then Outcome.blocked
  else if err ≠ some EOPNOTSUPP then Outcome.allowed
  else Outcome.dropped

/-- The channel sends at the tail of `scanSyscall`: a blocked or
allowed result is sent, a dropped one is not sent at all. -/
def emitResult (id : Int) (err : Option Int) : Option ScanResult :=
  if err = some EPERM ∨ err = some EACCES then
    some { name := syscallName id, allowed := false }
  else if err ≠ some EOPNOTSUPP then
    some { name := syscallName id, allowed := true }
  else
    none

/-- The hard-coded `100 * time.Millisecond` timeout arm of the select
in `scanSyscall`, in milliseconds. -/
def probeTimeoutMillis : Nat := 100

/-- The select race in `scanSyscall`: the raw invocation completes
after `completionMillis` milliseconds with errno `e`; if it completes
strictly before the timeout arm fires the observed error is `some e`,
otherwise the timeout case leaves `err` at its zero value (`none`). -/
def raceInvocation (completionMillis : Nat) (e : Int) : Option Int :=
  if completionMillis < probeTimeoutMillis then some e else none

/-- Embedding of `scanSyscall id c`.  `invoke` abstracts the raw
`syscall.Syscall(uintptr(id), 0, 0, 0)` invocation (already composed
with the timeout race, so `invoke id = none` means no error was
observed in time).  The first component is what the function sends on
the channel (`none` = nothing sent); the second records whether the
raw invocation was launched at all. -/
def scanSyscall (id : Int) (invoke : Int → Option Int) :
    Option ScanResult × Bool :=
  if guardExcludes id then (none, false)
  else (emitResult id (invoke id), true)

/-- The probe outcome of one id under invocation behaviour `invoke`:
`none` when the guards exclude the id before probing, otherwise the
classification of the observed error. -/
def probeOutcome (invoke : Int → Option Int) (id : Int) : Option Outcome :=
  if guardExcludes id then none else some (classify (invoke id))

/-- The ids enumerated by the scheduler loop
`for id := 0; id <= unix.SYS_RSEQ; id++` in `syscallIter`. -/
def syscallIterIds : List Int :=
  (List.range (unix.SYS_RSEQ.toNat + 1)).map (fun n => (n : Int))

/-- The result channel capacity chosen by `syscallIter`:
`make(chan scanResult, unix.SYS_RSEQ-len(skippedSyscalls))`. -/
def resultChannelCapacity : Int :=
  unix.SYS_RSEQ - (skippedSyscalls.length : Int)

/-- The number of results the scheduler drains:
`for i := 0; i < cap(c); i++ { results = append(results, <-c) }`. -/
def drainedResultCount : Int := resultChannelCapacity

/-- The ids for which the scheduler actually launches a raw probe:
every enumerated id whose `scanSyscall` gets past the guards. -/
def probedIds : List Int :=
  syscallIterIds.filter (fun id => !(guardExcludes id))

/-- Go `fmt.Sprint` rendering of a `[]string`:
`[elem1 elem2 ...]`, space-separated inside brackets. -/
def fmtSprintStrings (xs : List String) : String :=
  "[" ++ String.intercalate " " xs ++ "]"

/-- The `skippedNames` slice built in `SyscallsBucket.Run`:
the name of every entry of `skippedSyscalls`, in slice order. -/
def skippedNames : List String := skippedSyscalls.map syscallName

/-- The comment set by `SyscallsBucket.Run`:
`fmt.Sprint(skippedNames) + " were not scanned because they cause
hang or for obvious reasons."`. -/
def scanComment : String :=
  fmtSprintStrings skippedNames ++
    " were not scanned because they cause hang or for obvious reasons."

/-- The report assembled by `SyscallsBucket.Run`: two name columns
and the comment. -/
structure SyscallsReport where
  blocked : List String
  allowed : List String
  comment : String
deriving DecidableEq

/-- Embedding of the aggregation loop of `SyscallsBucket.Run` over the
collected results: results with `allowed` set go to the allowed list,
the others to the blocked list, in iteration order; the comment is
the fixed skipped-names text. -/
def syscallsRun (results : List ScanResult) : SyscallsReport :=
  { blocked := (results.filter (fun r => !r.allowed)).map ScanResult.name
  , allowed := (results.filter (fun r => r.allowed)).map ScanResult.name
  , comment := scanComment }

/-- Modelled from the spec: the `bucket.Results` value of the generic
check-runner contract (pkg/bucket is not under src/) -- tabular rows
plus an optional comment; `bucket.Results{}` is the value with every
field empty. -/
structure Results where
  headers : List String := []
  content : List (List String) := []
  comment : String := ""
deriving DecidableEq

/-- Embedding of `Bucket.Run` from syscalls_darwin.go: it returns
`(bucket.Results{}, errors.New("syscall scan is not supported on
macOS x86"))` and does nothing else.  First component: the returned
(Results, error) pair with the error as `some` message; second
component: the number of raw probe invocations the body performs,
which is zero since the body is a single return statement. -/
def darwinRun : (Results × Option String) × Nat :=
  (({}, some "syscall scan is not supported on macOS x86"), 0)

/-- Modelled from the spec: the generic bucket configuration record of
the check-runner contract (pkg/bucket is not under src/), carrying the
fields the buckets in src/ read (a target namespace and the two
admission flags).  The syscalls factory receives it and ignores it. -/
structure Config where
  targetNamespace : String := ""
  admCreate : Bool := false
  admForce : Bool := false
deriving DecidableEq

/-- The `SyscallsBucket` struct: it has no fields. -/
structure SyscallsBucket
deriving DecidableEq

/-- Embedding of `NewSyscallsBucket`: it ignores its configuration and
returns an empty bucket and a nil error. -/
def NewSyscallsBucket (_config : Config) : SyscallsBucket × Option String :=
  ({}, none)

/-- The probe timeout a scan run from bucket `b` uses: `scanSyscall`
hard-codes the literal `100 * time.Millisecond`; neither the (empty)
bucket struct nor the configuration reaches that literal, so the
value is the constant for every bucket. -/
def scanTimeoutMillisOf (_b : SyscallsBucket) : Nat := probeTimeoutMillis

/-- Character class of the catalog mnemonics: uppercase letters,
digits and underscore. -/
def isMnemonicChar (c : Char) : Bool :=
  (decide (65 ≤ c.toNat) && decide (c.toNat ≤ 90)) ||
  (decide (48 ≤ c.toNat) && decide (c.toNat ≤ 57)) ||
  c.toNat == 95

/-- A canonical uppercase mnemonic: every character is an uppercase
letter, a digit or an underscore. -/
def isUppercaseMnemonic (s : String) : Bool := s.data.all isMnemonicChar

/-- `leadMatch pat s` holds when `pat` is an initial segment of `s`. -/
def leadMatch : List Char → List Char → Bool
  | [], _ => true
  | _ :: _, [] => false
  | a :: as, b :: bs => a == b && leadMatch as bs

/-- `occursWithin pat s` holds when `pat` occurs as a contiguous
segment somewhere inside `s`. -/
def occursWithin (pat : List Char) : List Char → Bool
  | [] => leadMatch pat []
  | b :: rest => leadMatch pat (b :: rest) || occursWithin pat rest

/-- Per-id case count for the partition invariant: how many of the
four buckets (excluded, allowed, blocked, dropped) an id falls into
under invocation behaviour `invoke`. -/
def idCaseCount (invoke : Int → Option Int) (id : Int) : Nat :=
  (if id ∈ skippedSyscalls then 1 else 0) +
  (if probeOutcome invoke id = some Outcome.allowed then 1 else 0) +
  (if probeOutcome invoke id = some Outcome.blocked then 1 else 0) +
  (if probeOutcome invoke id = some Outcome.dropped then 1 else 0)

/-- The guard chain of `scanSyscall` accepts exactly the members of
the `skippedSyscalls` slice. -/
theorem guard_iff_mem (id : Int) :
    guardExcludes id = true ↔ id ∈ skippedSyscalls := by
  simp only [guardExcludes, skippedSyscalls, Bool.or_eq_true, beq_iff_eq,
    List.mem_cons, List.not_mem_nil, or_false]
  tauto

/-- Splitting a list by a boolean predicate preserves total length. -/
theorem filterLengthSplit {α : Type} (p : α → Bool) (l : List α) :
    (l.filter p).length + (l.filter (fun a => !(p a))).length = l.length := by
  induction l with
  | nil => rfl
  | cons h t ih =>
    by_cases hp : p h = true
    · simp only [List.filter, hp, Bool.not_true, List.length_cons]
      omega
    · simp only [List.filter, hp, Bool.not_false, List.length_cons,
        Bool.false_eq_true]
      omega

/-- A value found by `List.lookup` in a list whose values all satisfy
`p` satisfies `p`. -/
theorem lookup_sat {α β : Type} [BEq α] (p : β → Bool) :
    ∀ (l : List (α × β)), l.all (fun q => p q.2) = true →
      ∀ (a : α) (b : β), l.lookup a = some b → p b = true := by
  intro l
  induction l with
  | nil => intro _ a b h; simp [List.lookup] at h
  | cons hd tl ih =>
    obtain ⟨k, v⟩ := hd
    intro hall a b h
    simp only [List.all_cons, Bool.and_eq_true] at hall
    simp only [List.lookup] at h
    cases hbeq : a == k
    · rw [hbeq] at h
      exact ih hall.2 a b h
    · rw [hbeq] at h
      simp only [Option.some.injEq] at h
      exact h ▸ hall.1

/-- Every name in the catalog is an uppercase mnemonic. -/
theorem catalog_names_uppercase :
    syscallCatalog.all (fun p => isUppercaseMnemonic p.2) = true := by decide

/-- A probe classified dropped sends nothing on the channel. -/
theorem emit_dropped (id : Int) (err : Option Int)
    (h : classify err = Outcome.dropped) : emitResult id err = none := by
  unfold classify at h
  unfold emitResult
  split_ifs at h ⊢
  all_goals simp_all

/-- C1: the result channel capacity chosen by `syscallIter`
(`unix.SYS_RSEQ - len(skippedSyscalls)` = 320) and the number of
results the drain loop waits for (also 320) do NOT equal the number of
probes the scheduler launches for non-excluded ids, which is 321
because the enumeration `0..=SYS_RSEQ` is inclusive: the claimed
count-matching invariant is off by one on the code. -/
theorem C1_count_mismatch :
    resultChannelCapacity = 320 ∧ drainedResultCount = 320 ∧
    probedIds.length = 321 ∧
    resultChannelCapacity ≠ (probedIds.length : Int) :=
  ⟨by decide, by decide, by decide, by decide⟩

/-- C2: for every non-excluded id, the probe classification follows
the fixed errno table of `scanSyscall`: an observed EPERM or EACCES is
reported blocked, an observed EOPNOTSUPP is dropped (nothing sent on
the channel), and any other observation — success, any other errno, or
timeout with no observed error — is reported allowed. -/
theorem C2_classification (id : Int) (err : Option Int)
    (hg : guardExcludes id = false) :
    ((err = some EPERM ∨ err = some EACCES) →
      (scanSyscall id (fun _ => err)).1 =
        some { name := syscallName id, allowed := false }) ∧
    (err = some EOPNOTSUPP → (scanSyscall id (fun _ => err)).1 = none) ∧
    ((err ≠ some EPERM ∧ err ≠ some EACCES ∧ err ≠ some EOPNOTSUPP) →
      (scanSyscall id (fun _ => err)).1 =
        some { name := syscallName id, allowed := true }) := by
  refine ⟨?_, ?_, ?_⟩
  · intro h
    simp [scanSyscall, hg, emitResult, h]
  · intro h
    subst h
    simp [scanSyscall, hg, emitResult, EPERM, EACCES, EOPNOTSUPP]
  · intro h
    simp [scanSyscall, hg, emitResult, h.1, h.2.1, h.2.2]

/-- C2 witness: id 0 (READ) with observed errno EACCES (13) is
reported blocked. -/
theorem C2_classification_witness :
    (scanSyscall 0 (fun _ => some 13)).1 =
      some { name := syscallName 0, allowed := false } :=
  (C2_classification 0 (some 13) (by decide)).1 (Or.inr rfl)

/-- C3: for every id in the exclusion slice the prober returns from
the guard chain before the raw invocation is launched: nothing is
sent and the invocation flag stays false, for every invocation
behaviour. -/
theorem C3_excluded_never_invoked (id : Int) (invoke : Int → Option Int)
    (h : id ∈ skippedSyscalls) :
    scanSyscall id invoke = (none, false) := by
  have hg : guardExcludes id = true := (guard_iff_mem id).mpr h
  simp [scanSyscall, hg]

/-- C3 witness: id 60 (EXIT) is never invoked even under an invoker
that would report success. -/
theorem C3_excluded_never_invoked_witness :
    scanSyscall 60 (fun _ => some 0) = (none, false) :=
  C3_excluded_never_invoked 60 (fun _ => some 0) (by decide)

/-- C4 (amended): the probe timeout is the fixed, hard-coded constant
100 ms, and when the raw invocation does not complete before the
timeout the observed error stays at its zero value, so the probe is
classified allowed. -/
theorem C4_timeout_allowed :
    probeTimeoutMillis = 100 ∧
    ∀ (id : Int) (t : Nat) (e : Int), guardExcludes id = false →
      probeTimeoutMillis ≤ t →
      scanSyscall id (fun _ => raceInvocation t e) =
        (some { name := syscallName id, allowed := true }, true) := by
  refine ⟨rfl, ?_⟩
  intro id t e hg ht
  have hnl : ¬ (t < probeTimeoutMillis) := Nat.not_lt.mpr ht
  simp [scanSyscall, hg, raceInvocation, hnl, emitResult, EPERM, EACCES,
    EOPNOTSUPP]

/-- C4 witness: id 0 (READ) whose invocation would return EPERM but
only completes at the 100 ms mark is classified allowed. -/
theorem C4_timeout_allowed_witness :
    scanSyscall 0 (fun _ => raceInvocation 100 1) =
      (some { name := syscallName 0, allowed := true }, true) :=
  C4_timeout_allowed.2 0 100 1 (by decide) (by decide)

/-- C4 counterexample: the timeout is not configurable — the factory
ignores its configuration, the bucket struct carries no state, and
every bucket scans with the hard-coded 100 ms timeout, so no
configuration yields any other timeout. -/
theorem C4_not_configurable :
    scanTimeoutMillisOf (NewSyscallsBucket {}).1 = 100 ∧
    scanTimeoutMillisOf (NewSyscallsBucket
      { targetNamespace := "kube-system", admCreate := true,
        admForce := true }).1 = 100 ∧
    ¬ ∃ c : Config, scanTimeoutMillisOf (NewSyscallsBucket c).1 ≠ 100 := by
  refine ⟨rfl, rfl, ?_⟩
  rintro ⟨c, hc⟩
  exact hc rfl

/-- C5: every id in the enumerated range 0..=SYS_RSEQ falls into
exactly one of the four buckets — excluded, or classified allowed,
blocked or dropped — under every invocation behaviour. -/
theorem C5_partition (invoke : Int → Option Int) (id : Int)
    (_h : id ∈ syscallIterIds) : idCaseCount invoke id = 1 := by
  have hmem := guard_iff_mem id
  unfold idCaseCount probeOutcome
  by_cases hg : guardExcludes id = true
  · have hin : id ∈ skippedSyscalls := hmem.mp hg
    simp [hg, hin]
  · have hb : guardExcludes id = false := by
      revert hg; cases guardExcludes id <;> simp
    have hnm : id ∉ skippedSyscalls := fun hm => by
      rw [hmem.mpr hm] at hb; cases hb
    cases hc : classify (invoke id) <;> simp [hb, hnm, hc]

/-- C5 witness: id 0 under a timing-out invoker. -/
theorem C5_partition_witness : idCaseCount (fun _ => none) 0 = 1 :=
  C5_partition (fun _ => none) 0 (by decide)

/-- C6: on the unsupported platform the bucket run fails immediately
with the platform-unsupported error, returns the empty zero-value
report, and launches zero probes. -/
theorem C6_platform_gate :
    darwinRun.1.2 = some "syscall scan is not supported on macOS x86" ∧
    darwinRun.1.1 = ({} : Results) ∧ darwinRun.2 = 0 :=
  ⟨rfl, rfl, rfl⟩

/-- C7: catalog name lookup is total and never fails: an id with a
catalog entry yields that entry, which is a canonical uppercase
mnemonic, and an id with no entry yields the formatted placeholder
embedding the numeric id. -/
theorem C7_name_total (e : Int) :
    (∀ n : String, syscallCatalog.lookup e = some n →
      syscallName e = n ∧ isUppercaseMnemonic n = true) ∧
    (syscallCatalog.lookup e = none →
      syscallName e = toString e ++ " - ERR_UNKNOWN_SYSCALL") := by
  constructor
  · intro n h
    refine ⟨?_, lookup_sat isUppercaseMnemonic syscallCatalog
      catalog_names_uppercase e n h⟩
    simp [syscallName, h]
  · intro h
    simp [syscallName, h]

/-- C7 witness: id 0 resolves to READ; id 335 (beyond the table)
resolves to the placeholder. -/
theorem C7_name_total_witness :
    (syscallName 0 = "READ" ∧ isUppercaseMnemonic "READ" = true) ∧
    syscallName 335 = toString (335 : Int) ++ " - ERR_UNKNOWN_SYSCALL" :=
  ⟨(C7_name_total 0).1 "READ" (by decide),
   (C7_name_total 335).2 (by decide)⟩

/-- C8 (amended): the aggregator buckets already-classified results
purely by label — every result lands in the allowed or blocked name
list according to its flag and nothing is lost or duplicated at
aggregation, dropped probes send no result at all — and the comment is
the skipped-name enumeration followed by the text " were not scanned
because they cause hang or for obvious reasons.". -/
theorem C8_aggregator_buckets (results : List ScanResult) :
    (syscallsRun results).allowed.length +
      (syscallsRun results).blocked.length = results.length ∧
    (∀ r ∈ results, r.name ∈
      (if r.allowed then (syscallsRun results).allowed
       else (syscallsRun results).blocked)) ∧
    (∀ (id : Int) (err : Option Int), classify err = Outcome.dropped →
      (scanSyscall id (fun _ => err)).1 = none) ∧
    (syscallsRun results).comment =
      fmtSprintStrings (skippedSyscalls.map syscallName) ++
        " were not scanned because they cause hang or for obvious reasons." := by
  refine ⟨?_, ?_, ?_, rfl⟩
  · simpa [syscallsRun] using filterLengthSplit (fun r => r.allowed) results
  · intro r hr
    by_cases h : r.allowed = true <;> simp only [syscallsRun, h, if_true,
      if_false, Bool.false_eq_true] <;> exact List.mem_map.mpr
        ⟨r, List.mem_filter.mpr ⟨hr, by simp [h]⟩, rfl⟩
  · intro id err hc
    by_cases hg : guardExcludes id = true
    · simp [scanSyscall, hg]
    · have hb : guardExcludes id = false := by
        revert hg; cases guardExcludes id <;> simp
      simp [scanSyscall, hb, emit_dropped id err hc]

/-- C8 witness: a single allowed result is bucketed into the allowed
list and nothing is lost. -/
theorem C8_aggregator_buckets_witness :
    (syscallsRun [{ name := "READ", allowed := true }]).allowed.length +
      (syscallsRun [{ name := "READ", allowed := true }]).blocked.length = 1 ∧
    ({ name := "READ", allowed := true } : ScanResult).name ∈
      (if ({ name := "READ", allowed := true } : ScanResult).allowed
       then (syscallsRun [{ name := "READ", allowed := true }]).allowed
       else (syscallsRun [{ name := "READ", allowed := true }]).blocked) :=
  ⟨(C8_aggregator_buckets [{ name := "READ", allowed := true }]).1,
   (C8_aggregator_buckets [{ name := "READ", allowed := true }]).2.1 _
     (List.mem_cons_self _ _)⟩

/-- C8 counterexample: the rationale text quoted by the claim, "these
were not scanned because they cause hang or for obvious reasons",
occurs nowhere in the comment the code actually produces — the code
appends " were not scanned because they cause hang or for obvious
reasons." directly after the name list, with no word "these". -/
theorem C8_comment_text :
    occursWithin
      "these were not scanned because they cause hang or for obvious reasons".data
      (syscallsRun []).comment.data = false := by decide

/-- C9: the skipped list in the report comment is identical across any
two runs, whatever results arrive, and every excluded id name appears
in it exactly once. -/
theorem C9_skipped_stable (rs1 rs2 : List ScanResult) :
    (syscallsRun rs1).comment = (syscallsRun rs2).comment ∧
    ∀ s ∈ skippedSyscalls,
      (skippedSyscalls.map syscallName).count (syscallName s) = 1 :=
  ⟨rfl, by decide⟩

/-- C9 witness: the comment of an empty run equals the comment of a
run with one result, and SELECT (id 23) appears exactly once. -/
theorem C9_skipped_stable_witness :
    (syscallsRun []).comment =
      (syscallsRun [{ name := "READ", allowed := true }]).comment ∧
    (skippedSyscalls.map syscallName).count (syscallName 23) = 1 :=
  ⟨(C9_skipped_stable [] [{ name := "READ", allowed := true }]).1,
   (C9_skipped_stable [] []).2 23 (by decide)⟩

/-- C10: the early-return guard chain inside the prober and the
`skippedSyscalls` slice used for channel sizing and the skipped
comment agree on membership for every id. -/
theorem C10_guard_matches_skipped (id : Int) :
    guardExcludes id = true ↔ id ∈ skippedSyscalls :=
  guard_iff_mem id

/-- C10 witness: both representations exclude id 23 (SELECT). -/
theorem C10_guard_matches_skipped_witness :
    guardExcludes 23 = true ↔ (23 : Int) ∈ skippedSyscalls :=
  C10_guard_matches_skipped 23

end Kdigger
